import Mathlib

/-
Verification of the landlens-manager import pipeline
(src/scripts/import_images.py) against its specification.

The script is shallowly embedded below:
* Python strings are Lean Strings; str.lower/str.strip/str.endswith/int()
  are modelled over ASCII data (the only characters the program deals in).
* Paths are lists of path components (PathT); resolution is the identity,
  i.e. paths are assumed to be already resolved and symlink-free.
* The filesystem is a finite tree (FSTree); os.walk with topdown pruning
  via dirnames mutation is modelled as a structurally recursive walk.
* Fallible calls return Except; warnings are returned explicitly.
* landlensdb.Local.load_images is external (not in src/) and is modelled
  from the spec, see load_images below.
-/

/-- ASCII model of Python str.lower(). -/
def pyLower (s : String) : String := String.mk (s.data.map Char.toLower)

/-- ASCII model of Python str.strip() with no argument: removes leading and
trailing whitespace. -/
def pyStrip (s : String) : String :=
  String.mk (((s.data.dropWhile Char.isWhitespace).reverse.dropWhile Char.isWhitespace).reverse)

/-- Python str.endswith with a single string argument. -/
def pyEndsWith (s suffix : String) : Bool := List.isSuffixOf suffix.data s.data

/-- Numeric value of a list of decimal digits. -/
def digitsVal (cs : List Char) : Nat := cs.foldl (fun n c => 10 * n + (c.toNat - 48)) 0

/-- ASCII-digit model of Python int(str): optional surrounding whitespace,
optional single sign, then one or more decimal digits; None when the string
is not of that shape (so ValueError in the source). -/
def pyInt (s : String) : Option Int :=
  match (pyStrip s).data with
  | [] => none
  | c :: rest =>
    if c = '-' then
      if rest ≠ [] ∧ rest.all Char.isDigit then some (-(digitsVal rest : Int)) else none
    else if c = '+' then
      if rest ≠ [] ∧ rest.all Char.isDigit then some ((digitsVal rest : Int)) else none
    else if (c :: rest).all Char.isDigit then some ((digitsVal (c :: rest) : Int)) else none

/-- ALLOWED_EXTENSIONS from import_images.py line 24. -/
def ALLOWED_EXTENSIONS : List String := [".jpg", ".jpeg"]

/-- DEFAULT_THUMBNAIL_SIZE from import_images.py line 25. -/
def DEFAULT_THUMBNAIL_SIZE : Int × Int := (256, 256)

/-- The truthy strings of parse_bool (import_images.py line 31). -/
def TRUE_STRINGS : List String := ["1", "true", "yes", "y", "on"]

/-- parse_bool from import_images.py lines 28-31. -/
def parse_bool (value : Option String) (default : Bool) : Bool :=
  match value with
  | none => default
  | some v => TRUE_STRINGS.contains (pyLower (pyStrip v))

/-- Model of Python str.split(",") over character lists: maximal (possibly
empty) runs between commas, so the result always has one more entry than the
number of commas. -/
def splitComma : List Char → List (List Char)
  | [] => [[]]
  | c :: rest =>
    if c = ',' then [] :: splitComma rest
    else
      match splitComma rest with
      | [] => [[c]]
      | g :: gs => (c :: g) :: gs

/-- parse_thumbnail_size from import_images.py lines 34-45.  Python
`if not raw` treats both None and the empty string as absent.  The x-to-comma
replacement happens after lowering, the empty parts produced by repeated
separators are discarded, the length check precedes integer conversion. -/
def parse_thumbnail_size (raw : Option String) : Except String (Int × Int) :=
  match raw with
  | none => Except.ok DEFAULT_THUMBNAIL_SIZE
  | some s =>
    if s = "" then Except.ok DEFAULT_THUMBNAIL_SIZE
    else
      let normalized := (pyLower s).data.map (fun c => if c = 'x' then ',' else c)
      let parts := ((splitComma normalized).map String.mk).filter (fun p => p ≠ "")
      match parts with
      | [p0, p1] =>
        match pyInt p0, pyInt p1 with
        | some a, some b => Except.ok (a, b)
        | _, _ => Except.error "Thumbnail size values must be integers"
      | _ => Except.error "Thumbnail size must look like 256x256 or 256,256"

/-- The create_thumbnails computation of load_config (import_images.py
lines 58-59): the env flag parsed with default True, conjoined with the
absence of the --no-thumbnails CLI flag. -/
def create_thumbnails_config (env_value : Option String) (no_thumbnails_flag : Bool) : Bool :=
  parse_bool env_value true && !no_thumbnails_flag

/-- A filesystem path, as a list of already-resolved components. -/
abbrev PathT := List String

/-- A finite directory tree: named subdirectories paired with their trees,
and the plain filenames of the directory. -/
inductive FSTree where
  | mk : List (String × FSTree) → List String → FSTree

/-- Whether filtered_walk keeps a filename (import_images.py lines 129-133):
its lowercased name ends with one of the allowed extensions, as in Python
f.lower().endswith(ALLOWED_EXTENSIONS). -/
def keep_file (f : String) : Bool :=
  ALLOWED_EXTENSIONS.any (fun e => pyEndsWith (pyLower f) e)

mutual

/-- The body of filtered_walk (import_images.py lines 121-134) below the
top-level skip check: os.walk with topdown=True yields the current directory
and then recurses into exactly the subdirectories left in dirnames after the
in-place pruning, so the walk is modelled as: yield (current path, files
passing keep_file), then walk the subdirectories that survive pruning. -/
def walkTree (skip : List PathT) (cur : PathT) : FSTree → List (PathT × List String)
  | FSTree.mk subdirs files => (cur, files.filter keep_file) :: walkSubdirs skip cur subdirs

/-- Pruning plus recursion over a directory's subdirectory list
(import_images.py lines 123-128): a subdirectory is dropped when its resolved
path is in the skip set or its name is "__MACOSX"; the others are walked in
order. -/
def walkSubdirs (skip : List PathT) (cur : PathT) : List (String × FSTree) → List (PathT × List String)
  | [] => []
  | (n, t) :: rest =>
    if cur ++ [n] ∈ skip ∨ n = "__MACOSX" then walkSubdirs skip cur rest
    else walkTree skip (cur ++ [n]) t ++ walkSubdirs skip cur rest

end

/-- filtered_walk from import_images.py lines 118-134: an empty walk when the
top directory itself resolves into the skip set, the pruned walk otherwise. -/
def filtered_walk (skip : List PathT) (top : PathT) (t : FSTree) : List (PathT × List String) :=
  if top ∈ skip then [] else walkTree skip top t

/-- An opened image handle; its content is irrelevant to the pipeline. -/
inductive Img where
  | mk : Img
deriving DecidableEq

/-- EXIF-style metadata, a finite key-value mapping. -/
abbrev Metadata := List (String × String)

/-- One row of the built table. -/
structure ImageRow where
  image_url : String
  metadata : Metadata
deriving DecidableEq

/-- safe_get_exif from import_images.py lines 102-109: empty metadata for a
None image, the original extractor's result when it succeeds, empty metadata
when it raises. -/
def safe_get_exif (original_get_exif : Img → Except String Metadata) (img : Option Img) :
    Metadata :=
  match img with
  | none => []
  | some i =>
    match original_get_exif i with
    | Except.ok m => m
    | Except.error _ => []

/-- safe_image_open from import_images.py lines 111-116: the opened image and
no warning when the original open succeeds; None plus the warning naming the
path when it raises. -/
def safe_image_open (original_image_open : String → Except String Img) (path : String) :
    Option Img × List String :=
  match original_image_open path with
  | Except.ok i => (some i, [])
  | Except.error _ => (none, ["Skipping unreadable image: " ++ path])

/-- Rendering of a resolved path, components joined by slashes. -/
def pathStr (p : PathT) : String := String.intercalate "/" p

/-- os.path.join of a directory path and a filename. -/
def joinPath (dir : PathT) (f : String) : String := pathStr dir ++ "/" ++ f

/-- Modelled from the spec: landlensdb.handlers.image.Local.load_images is
external library code, not under src/.  Per the spec (sections 2, 4.2 and
4.4) it drives the module's walk function over the directory tree and, for
every yielded file in traversal order, opens it with the module's image-open
function and extracts metadata with the module's EXIF function, producing one
row per file whose open succeeded (image_url is the joined directory/file
path); files whose open returns the unopenable sentinel None are excluded. -/
def load_images (walk_output : List (PathT × List String))
    (image_open : String → Option Img) (get_exif_data : Option Img → Metadata) :
    List ImageRow :=
  walk_output.flatMap (fun pr =>
    pr.2.filterMap (fun f =>
      (image_open (joinPath pr.1 f)).map
        (fun img => ImageRow.mk (joinPath pr.1 f) (get_exif_data (some img)))))

/-- Whether build_geoimageframe keeps a row (import_images.py lines 163-164):
the lowercased image_url ends with one of the allowed extensions. -/
def keep_url (u : String) : Bool :=
  ALLOWED_EXTENSIONS.any (fun e => pyEndsWith (pyLower u) e)

/-- build_geoimageframe from import_images.py lines 151-171, with
load_images_filtered inlined as the composition of filtered_walk, the safe
wrappers and the modelled load_images: builds the frame, re-filters it on the
assembled image_url column, counts the rows removed by that second filter,
and fails when the filtered frame is empty.  reset_index keeps row order and
is the identity here. -/
def build_geoimageframe (skip : List PathT) (root : PathT) (t : FSTree)
    (original_image_open : String → Except String Img)
    (original_get_exif : Img → Except String Metadata) :
    Except String (List ImageRow × Nat) :=
  let gif := load_images (filtered_walk skip root t)
    (fun p => (safe_image_open original_image_open p).1)
    (safe_get_exif original_get_exif)
  let filtered := gif.filter (fun r => keep_url r.image_url)
  let dropped := gif.length - filtered.length
  if filtered = [] then Except.error ("No JPEG images found in " ++ pathStr root)
  else Except.ok (filtered, dropped)

/-- The required-column set of align_columns_to_table (import_images.py line
198), listed in alphabetical order: filtering this list is the same as
Python's sorted(required - table_cols), because the required set has exactly
these three members. -/
def REQUIRED_SORTED : List String := ["geometry", "image_url", "name"]

/-- The sorted list of required columns absent from the target table
(import_images.py line 199 with the sorting of line 202). -/
def missing_required (table_cols : List String) : List String :=
  REQUIRED_SORTED.filter (fun c => !(table_cols.contains c))

/-- align_columns_to_table from import_images.py lines 190-214, at the level
of column lists (the pandas projection gif[present_cols] is determined by the
list of kept column names; row contents are untouched).  Returns the kept
columns in the frame's original order together with the optional
dropped-columns warning, or the missing-required-columns error. -/
def align_columns_to_table (table : String) (table_cols : List String)
    (gif_cols : List String) : Except String (List String × Option String) :=
  let missing := missing_required table_cols
  if missing ≠ [] then
    Except.error ("Target table '" ++ table ++ "' is missing required columns: "
      ++ String.intercalate ", " missing)
  else
    let present_cols := gif_cols.filter (fun c => table_cols.contains c)
    let dropped_cols := gif_cols.filter (fun c => !(table_cols.contains c))
    let warning :=
      if dropped_cols ≠ [] then
        some ("Dropping columns not present in '" ++ table ++ "': "
          ++ String.intercalate ", " dropped_cols)
      else none
    Except.ok (present_cols, warning)

/-- The frame-building and persistence stages of import_images
(import_images.py lines 231-247): build the frame, align its columns against
the target table, then hand the aligned column list to the upsert step; an
error at any stage short-circuits the rest.  frame_cols maps the built rows
to the frame's column list (the columns the extractor emitted). -/
def import_pipeline (skip : List PathT) (root : PathT) (t : FSTree)
    (original_image_open : String → Except String Img)
    (original_get_exif : Img → Except String Metadata)
    (table : String) (table_cols : List String)
    (frame_cols : List ImageRow → List String)
    (upsert : List String → Except String Unit) : Except String Unit := do
  let built ← build_geoimageframe skip root t original_image_open original_get_exif
  let aligned ← align_columns_to_table table table_cols (frame_cols built.1)
  upsert aligned.1

/-- The landlensdb image-module globals patched by load_images_filtered:
os.walk, Local.get_exif_data and Image.open, threaded explicitly instead of
mutated in place.  The field types are parameters because only the values'
round-trip matters. -/
structure ModuleState (W E O : Type) where
  walk : W
  get_exif_data : E
  image_open : O

/-- Assignment to the module's get_exif_data global. -/
def setExif {W E O : Type} (s : ModuleState W E O) (e : E) : ModuleState W E O :=
  ModuleState.mk s.walk e s.image_open

/-- Assignment to the module's image_open global. -/
def setOpen {W E O : Type} (s : ModuleState W E O) (o : O) : ModuleState W E O :=
  ModuleState.mk s.walk s.get_exif_data o

/-- Assignment to the module's walk global. -/
def setWalk {W E O : Type} (s : ModuleState W E O) (w : W) : ModuleState W E O :=
  ModuleState.mk w s.get_exif_data s.image_open

/-- State-passing model of load_images_filtered (import_images.py lines
86-148): save the three originals, install the patched values in the source's
assignment order (get_exif_data, image_open, walk), run the wrapped
load_images call against the patched state, then restore the three globals in
the finally-block order (walk, get_exif_data, image_open).  The body's result
is an Except, so a raising call is the Except.error case, and the restoring
assignments are unconditional exactly like a finally block. -/
def load_images_filtered {W E O A : Type} (s0 : ModuleState W E O)
    (patched_walk : W) (patched_exif : E) (patched_open : O)
    (body : ModuleState W E O → Except String A) :
    Except String A × ModuleState W E O :=
  let original_walk := s0.walk
  let original_get_exif := s0.get_exif_data
  let original_image_open := s0.image_open
  let s1 := setExif s0 patched_exif
  let s2 := setOpen s1 patched_open
  let s3 := setWalk s2 patched_walk
  let result := body s3
  let s4 := setWalk s3 original_walk
  let s5 := setExif s4 original_get_exif
  let s6 := setOpen s5 original_image_open
  (result, s6)

/-- The directory tree of the spec's traversal example: the root holds a/
with photo1.jpg and photo2.png, and a sibling __MACOSX/ folder holding
b/.DS_Store. -/
def tree1 : FSTree :=
  FSTree.mk [("a", FSTree.mk [] ["photo1.jpg", "photo2.png"]),
             ("__MACOSX", FSTree.mk [("b", FSTree.mk [] [".DS_Store"])] [])] []

/-- An image-open routine that always succeeds. -/
def allOpen : String → Except String Img := fun _ => Except.ok Img.mk

/-- An EXIF extractor that succeeds with empty metadata. -/
def noExif : Img → Except String Metadata := fun _ => Except.ok []

/-- C1 counterexample: on the spec's own example tree the built table has
exactly one row, but the post-assembly extension filter removes nothing, so
the reported dropped count is 0, not the claimed 1 — the .png was already
removed during traversal by filtered_walk and never reaches the frame. -/
theorem c1_dropped_count_is_zero :
    build_geoimageframe [] ["root"] tree1 allOpen noExif
      = Except.ok ([ImageRow.mk "root/a/photo1.jpg" []], 0) ∧ (0 : Nat) ≠ 1 :=
  ⟨rfl, by decide⟩

/-- C1 (amended): for the example tree the walk yields only the root and a/
with photo1.jpg (nothing under __MACOSX is ever traversed, and the .png is
dropped during traversal), so the built table has exactly the row for
a/photo1.jpg and the post-assembly dropped count is 0. -/
theorem c1_example_run :
    filtered_walk [] ["root"] tree1 = [(["root"], []), (["root", "a"], ["photo1.jpg"])] ∧
    ((filtered_walk [] ["root"] tree1).all (fun pr => !(pr.1.contains "__MACOSX"))) = true ∧
    build_geoimageframe [] ["root"] tree1 allOpen noExif
      = Except.ok ([ImageRow.mk "root/a/photo1.jpg" []], 0) :=
  ⟨rfl, by decide, rfl⟩

/-- C8 counterexample: the parser accepts "0x0" and returns (0, 0), which is
not a pair of positive integers — positivity is never checked. -/
theorem c8_accepts_nonpositive :
    parse_thumbnail_size (some "0x0") = Except.ok (0, 0) ∧ ¬ (0 < (0 : Int)) :=
  ⟨rfl, by decide⟩

/-- C8 (amended): an unset or empty value yields the default (256, 256);
"512x512" parses to (512, 512); "bad" fails with the shape error and "axb"
with the integer error, both fatal configuration errors raised by the parser
before any scanning; accepted values are a pair of integers, not necessarily
positive (e.g. "0x0" yields (0, 0)). -/
theorem c8_thumbnail_size_parsing :
    parse_thumbnail_size none = Except.ok (256, 256) ∧
    parse_thumbnail_size (some "") = Except.ok (256, 256) ∧
    parse_thumbnail_size (some "512x512") = Except.ok (512, 512) ∧
    parse_thumbnail_size (some "bad")
      = Except.error "Thumbnail size must look like 256x256 or 256,256" ∧
    parse_thumbnail_size (some "axb")
      = Except.error "Thumbnail size values must be integers" ∧
    parse_thumbnail_size (some "0x0") = Except.ok (0, 0) :=
  ⟨rfl, rfl, rfl, rfl, rfl, rfl⟩

/-- C9: load_images_filtered restores the three patched module globals to
their original values in every case — the final state equals the initial one
— while the wrapped call runs against the fully patched state; since the
body's result (normal value or raised error) is returned unchanged, the
restoration holds both on normal completion and when the body raises. -/
theorem c9_globals_restored (W E O A : Type) (s0 : ModuleState W E O)
    (pw : W) (pe : E) (po : O) (body : ModuleState W E O → Except String A) :
    (load_images_filtered s0 pw pe po body).2 = s0 ∧
    (load_images_filtered s0 pw pe po body).1 = body (ModuleState.mk pw pe po) := by
  cases s0
  exact ⟨rfl, rfl⟩

/-- C10: parse_bool returns the supplied default exactly on None; for any
present string the result is membership of the stripped, lowercased value in
the truthy set, independently of the default; hence the empty string yields
False even with default True, and create_thumbnails is False when the env
variable is set but empty. -/
theorem c10_parse_bool_semantics :
    (∀ d : Bool, parse_bool none d = d) ∧
    (∀ (v : String) (d : Bool),
      parse_bool (some v) d = TRUE_STRINGS.contains (pyLower (pyStrip v))) ∧
    parse_bool (some "") true = false ∧
    create_thumbnails_config (some "") false = false :=
  ⟨fun _ => rfl, fun _ _ => rfl, rfl, rfl⟩

/-- No directory at or below a skip-set entry d is ever yielded by the walk
body, provided d is not already an ancestor of the starting directory: the
pruning of walkSubdirs removes the subdirectory exactly when its path reaches
a skip-set member. -/
theorem walk_no_dir_under_skip (skip : List PathT) (d : PathT) (hd : d ∈ skip) :
    ∀ (cur : PathT) (t : FSTree), ¬ d <+: cur →
      ∀ pr ∈ walkTree skip cur t, ¬ d <+: pr.1 := by
  refine walkTree.induct skip
    (fun cur t => ¬ d <+: cur → ∀ pr ∈ walkTree skip cur t, ¬ d <+: pr.1)
    (fun cur sds => ¬ d <+: cur → ∀ pr ∈ walkSubdirs skip cur sds, ¬ d <+: pr.1)
    ?_ ?_ ?_ ?_
  · intro cur subdirs files ih hc pr hpr
    rw [walkTree] at hpr
    rcases List.mem_cons.mp hpr with h | h
    · subst h
      exact hc
    · exact ih hc pr h
  · intro cur hc pr hpr
    simp [walkSubdirs] at hpr
  · intro cur n t rest hcond ih hc pr hpr
    rw [walkSubdirs, if_pos hcond] at hpr
    exact ih hc pr hpr
  · intro cur n t rest hcond ih1 ih2 hc pr hpr
    rw [walkSubdirs, if_neg hcond] at hpr
    rcases List.mem_append.mp hpr with h | h
    · refine ih1 ?_ pr h
      intro hpre
      rcases List.prefix_concat_iff.mp hpre with heq | hpre2
      · exact hcond (Or.inl (heq ▸ hd))
      · exact hc hpre2
    · exact ih2 hc pr h

/-- C2 (amended): for every skip-set entry d that is not a proper ancestor of
the root, no directory at or below d is traversed, so no file beneath d can
appear in the output table; and if the root itself is in the skip-set the
traversal is empty.  The proper-ancestor proviso is forced by the
counterexample: the walk compares each visited path against the skip-set by
equality only. -/
theorem c2_skip_transitive_unless_ancestor (skip : List PathT) (top : PathT) (t : FSTree)
    (d : PathT) (hd : d ∈ skip) (hanc : d <+: top → d = top) :
    ((filtered_walk skip top t).all (fun pr => decide (¬ d <+: pr.1)) = true) ∧
    (top ∈ skip → filtered_walk skip top t = []) := by
  constructor
  · by_cases htop : top ∈ skip
    · simp [filtered_walk, htop]
    · rw [List.all_eq_true]
      intro pr hpr
      rw [decide_eq_true_iff]
      refine walk_no_dir_under_skip skip d hd top t ?_ pr ?_
      · intro hpre
        exact htop ((hanc hpre) ▸ hd)
      · rw [filtered_walk, if_neg htop] at hpr
        exact hpr
  · intro htop
    simp [filtered_walk, htop]

/-- Skip-set with one entry below the root, for the C2 witness. -/
def skipC2 : List PathT := [["root", "b"]]

/-- Tree with a skipped branch b/ (with a file and a subdirectory) and a kept
branch a/, for the C2 witness. -/
def treeC2 : FSTree :=
  FSTree.mk [("a", FSTree.mk [] ["x.jpg"]),
             ("b", FSTree.mk [("c", FSTree.mk [] ["z.jpg"])] ["y.jpg"])] []

/-- C2 witness: with the skip-set containing root/b, the walk of root yields
no directory at or below root/b. -/
theorem c2_skip_witness :
    (["root", "b"] ∈ skipC2) ∧
    ((["root", "b"] : PathT) <+: ["root"] → (["root", "b"] : PathT) = ["root"]) ∧
    ((filtered_walk skipC2 ["root"] treeC2).all
        (fun pr => decide (¬ (["root", "b"] : PathT) <+: pr.1)) = true) ∧
    (["root"] ∈ skipC2 → filtered_walk skipC2 ["root"] treeC2 = []) := by
  refine ⟨by decide, by decide, ?_⟩
  exact c2_skip_transitive_unless_ancestor skipC2 ["root"] treeC2 ["root", "b"]
    (by decide) (by decide)

/-- Skip-set whose only entry is a proper ancestor of the scanned root,
as produced by fetch_existing_dirs when the table holds an image url whose
string extends the root string (e.g. root /data/root and stored image
/data/root2.jpg, whose directory is /data). -/
def skipAnc : List PathT := [["data"]]

/-- A root directory holding one jpg, for the C2 counterexample. -/
def treeAnc : FSTree := FSTree.mk [] ["x.jpg"]

/-- C2 counterexample: the skip-set contains the directory data, the scanned
root data/root lies beneath it, and yet the built output table contains the
file data/root/x.jpg — a file beneath a skip-set directory — because the walk
compares visited paths against the skip-set by equality, never by prefix. -/
theorem c2_ancestor_counterexample :
    (["data"] ∈ skipAnc) ∧
    ((["data"] : PathT) <+: ["data", "root"]) ∧
    build_geoimageframe skipAnc ["data", "root"] treeAnc allOpen noExif
      = Except.ok ([ImageRow.mk "data/root/x.jpg" []], 0) :=
  ⟨by decide, by decide, rfl⟩

/-- C3: every row of a successfully built table has an image_url whose
lowercased value ends in an allowed extension — whatever the tree, the
skip-set, the directory-level filtering and the extractor behavior, the
post-assembly filter of build_geoimageframe guarantees it. -/
theorem c3_only_allowed_extensions (skip : List PathT) (root : PathT) (t : FSTree)
    (oOpen : String → Except String Img) (oExif : Img → Except String Metadata)
    (tbl : List ImageRow) (d : Nat)
    (h : build_geoimageframe skip root t oOpen oExif = Except.ok (tbl, d)) :
    tbl.all (fun r => keep_url r.image_url) = true := by
  simp only [build_geoimageframe] at h
  split at h
  · exact absurd h (by simp)
  · rw [Except.ok.injEq, Prod.mk.injEq] at h
    obtain ⟨h1, h2⟩ := h
    subst h1
    rw [List.all_eq_true]
    intro r hr
    exact (List.mem_filter.mp hr).2

/-- C3 witness: the example tree builds successfully and its single row
passes the extension check. -/
theorem c3_witness :
    build_geoimageframe [] ["root"] tree1 allOpen noExif
      = Except.ok ([ImageRow.mk "root/a/photo1.jpg" []], 0) ∧
    ([ImageRow.mk "root/a/photo1.jpg" []].all (fun r => keep_url r.image_url) = true) :=
  ⟨rfl, c3_only_allowed_extensions [] ["root"] tree1 allOpen noExif
    [ImageRow.mk "root/a/photo1.jpg" []] 0 rfl⟩

/-- The image component of safe_image_open is some i exactly when the
original open succeeds with i. -/
theorem safe_image_open_fst (oOpen : String → Except String Img) (q : String) (i : Img) :
    (safe_image_open oOpen q).1 = some i ↔ oOpen q = Except.ok i := by
  cases h : oOpen q <;> simp [safe_image_open, h]

/-- Membership in the modelled load_images output: a row comes from a walked
directory and a yielded file whose open succeeded, and carries the extracted
metadata. -/
theorem mem_load_images (walkOut : List (PathT × List String)) (openF : String → Option Img)
    (exifF : Option Img → Metadata) (r : ImageRow) :
    r ∈ load_images walkOut openF exifF ↔
      ∃ pr ∈ walkOut, ∃ f ∈ pr.2, ∃ i, openF (joinPath pr.1 f) = some i ∧
        ImageRow.mk (joinPath pr.1 f) (exifF (some i)) = r := by
  simp [load_images, List.mem_flatMap, List.mem_filterMap, Option.map_eq_some']

/-- C4: when opening the file at path p fails, the adapter returns the
unopenable sentinel together with the non-fatal warning naming p; every row
of the assembled table comes from a successfully opened file, so p is
excluded from the table; every file of the traversal whose open succeeds
still appears in the table (the batch completes); and when metadata
extraction fails on an opened image the adapter returns empty metadata
instead of propagating. -/
theorem c4_single_file_failures_isolated
    (oOpen : String → Except String Img) (oExif : Img → Except String Metadata)
    (p e : String) (img : Img) (e2 : String)
    (walkOut : List (PathT × List String))
    (h1 : oOpen p = Except.error e) (h2 : oExif img = Except.error e2) :
    safe_image_open oOpen p = (none, ["Skipping unreadable image: " ++ p]) ∧
    ((load_images walkOut (fun q => (safe_image_open oOpen q).1)
        (safe_get_exif oExif)).all (fun r => (oOpen r.image_url).isOk) = true) ∧
    (((load_images walkOut (fun q => (safe_image_open oOpen q).1)
        (safe_get_exif oExif)).map (fun r => r.image_url)).contains p = false) ∧
    (walkOut.all (fun pr => pr.2.all (fun f =>
        !((oOpen (joinPath pr.1 f)).isOk) ||
        ((load_images walkOut (fun q => (safe_image_open oOpen q).1)
            (safe_get_exif oExif)).map (fun r => r.image_url)).contains
          (joinPath pr.1 f))) = true) ∧
    safe_get_exif oExif (some img) = [] := by
  have hall : ∀ r ∈ load_images walkOut (fun q => (safe_image_open oOpen q).1)
      (safe_get_exif oExif), (oOpen r.image_url).isOk = true := by
    intro r hr
    obtain ⟨pr, hpr, f, hf, i, hopen, hrow⟩ := (mem_load_images _ _ _ r).mp hr
    have hok : oOpen (joinPath pr.1 f) = Except.ok i := (safe_image_open_fst oOpen _ i).mp hopen
    rw [← hrow]
    simp [hok, Except.isOk, Except.toBool]
  refine ⟨by simp [safe_image_open, h1], ?_, ?_, ?_, by simp [safe_get_exif, h2]⟩
  · rw [List.all_eq_true]
    exact hall
  · rw [Bool.eq_false_iff]
    intro hc
    have hmem : p ∈ (load_images walkOut (fun q => (safe_image_open oOpen q).1)
        (safe_get_exif oExif)).map (fun r => r.image_url) := List.elem_iff.mp hc
    obtain ⟨r, hr, hurl⟩ := List.mem_map.mp hmem
    have := hall r hr
    rw [hurl, h1] at this
    simp [Except.isOk, Except.toBool] at this
  · rw [List.all_eq_true]
    intro pr hpr
    rw [List.all_eq_true]
    intro f hf
    by_cases hok : (oOpen (joinPath pr.1 f)).isOk = true
    · rw [Bool.or_eq_true]
      right
      cases hcase : oOpen (joinPath pr.1 f) with
      | error err => rw [hcase] at hok; simp [Except.isOk, Except.toBool] at hok
      | ok i =>
        have hrowmem : ImageRow.mk (joinPath pr.1 f)
            (safe_get_exif oExif (some i)) ∈ load_images walkOut
            (fun q => (safe_image_open oOpen q).1) (safe_get_exif oExif) :=
          (mem_load_images _ _ _ _).mpr
            ⟨pr, hpr, f, hf, i, (safe_image_open_fst oOpen _ i).mpr hcase, rfl⟩
        have : joinPath pr.1 f ∈ (load_images walkOut
            (fun q => (safe_image_open oOpen q).1)
            (safe_get_exif oExif)).map (fun r => r.image_url) :=
          List.mem_map.mpr ⟨_, hrowmem, rfl⟩
        exact List.elem_iff.mpr this
    · rw [Bool.or_eq_true]
      left
      simp at hok
      rw [hok]
      rfl

/-- An open routine that fails only on root/bad.jpg, for the C4 witness. -/
def oOpen4 : String → Except String Img :=
  fun q => if q = "root/bad.jpg" then Except.error "corrupt" else Except.ok Img.mk

/-- An EXIF extractor that always raises, for the C4 witness. -/
def oExif4 : Img → Except String Metadata := fun _ => Except.error "no exif"

/-- A traversal yielding one unreadable and one readable file, for the C4
witness. -/
def walkOut4 : List (PathT × List String) := [(["root"], ["bad.jpg", "good.jpg"])]

/-- C4 witness: with the open of root/bad.jpg failing and EXIF extraction
always failing, the adapter warns about root/bad.jpg, excludes it, keeps
root/good.jpg, and returns empty metadata instead of raising. -/
theorem c4_witness :
    oOpen4 "root/bad.jpg" = Except.error "corrupt" ∧
    oExif4 Img.mk = Except.error "no exif" ∧
    (safe_image_open oOpen4 "root/bad.jpg"
        = (none, ["Skipping unreadable image: root/bad.jpg"]) ∧
      ((load_images walkOut4 (fun q => (safe_image_open oOpen4 q).1)
          (safe_get_exif oExif4)).all (fun r => (oOpen4 r.image_url).isOk) = true) ∧
      (((load_images walkOut4 (fun q => (safe_image_open oOpen4 q).1)
          (safe_get_exif oExif4)).map (fun r => r.image_url)).contains "root/bad.jpg" = false) ∧
      (walkOut4.all (fun pr => pr.2.all (fun f =>
          !((oOpen4 (joinPath pr.1 f)).isOk) ||
          ((load_images walkOut4 (fun q => (safe_image_open oOpen4 q).1)
              (safe_get_exif oExif4)).map (fun r => r.image_url)).contains
            (joinPath pr.1 f))) = true) ∧
      safe_get_exif oExif4 (some Img.mk) = []) :=
  ⟨rfl, rfl, c4_single_file_failures_isolated oOpen4 oExif4 "root/bad.jpg" "corrupt"
    Img.mk "no exif" walkOut4 rfl rfl⟩

/-- C5: when the frame is empty after the post-assembly extension filter,
build_geoimageframe fails with the no-images error naming the root path, and
the whole pipeline fails with that same error — the error arises in the
frame-building stage, before schema alignment or the write stage can run. -/
theorem c5_empty_frame_fails_before_alignment (skip : List PathT) (root : PathT) (t : FSTree)
    (oOpen : String → Except String Img) (oExif : Img → Except String Metadata)
    (table : String) (tcols : List String) (fcols : List ImageRow → List String)
    (upsert : List String → Except String Unit)
    (h : (load_images (filtered_walk skip root t)
        (fun p => (safe_image_open oOpen p).1)
        (safe_get_exif oExif)).filter (fun r => keep_url r.image_url) = []) :
    build_geoimageframe skip root t oOpen oExif
      = Except.error ("No JPEG images found in " ++ pathStr root) ∧
    import_pipeline skip root t oOpen oExif table tcols fcols upsert
      = Except.error ("No JPEG images found in " ++ pathStr root) := by
  have hbuild : build_geoimageframe skip root t oOpen oExif
      = Except.error ("No JPEG images found in " ++ pathStr root) := by
    simp only [build_geoimageframe]
    rw [if_pos h]
  refine ⟨hbuild, ?_⟩
  rw [import_pipeline, hbuild]
  rfl

/-- A directory holding only a non-JPEG file, for the C5 witness. -/
def tree5 : FSTree := FSTree.mk [] ["only.png"]

/-- C5 witness: a tree with only a .png yields an empty filtered frame, so
the build and the whole pipeline fail with the error naming the root pics. -/
theorem c5_witness :
    ((load_images (filtered_walk [] ["pics"] tree5)
        (fun p => (safe_image_open allOpen p).1)
        (safe_get_exif noExif)).filter (fun r => keep_url r.image_url) = []) ∧
    (build_geoimageframe [] ["pics"] tree5 allOpen noExif
        = Except.error "No JPEG images found in pics" ∧
      import_pipeline [] ["pics"] tree5 allOpen noExif "t"
          ["geometry", "image_url", "name"] (fun _ => ["image_url"])
          (fun _ => Except.ok ()) = Except.error "No JPEG images found in pics") :=
  ⟨rfl, c5_empty_frame_fails_before_alignment [] ["pics"] tree5 allOpen noExif "t"
    ["geometry", "image_url", "name"] (fun _ => ["image_url"]) (fun _ => Except.ok ()) rfl⟩

/-- C6: when any required column is absent from the target table, the aligner
fails with the error naming exactly the (sorted) missing required columns,
and the subsequent write step is never reached: the aligner's error is also
the result of the align-then-upsert composition, whatever the upsert does. -/
theorem c6_missing_required_fails_before_write (table : String) (tcols gcols : List String)
    (upsert : List String → Except String Unit)
    (h : missing_required tcols ≠ []) :
    align_columns_to_table table tcols gcols
      = Except.error ("Target table '" ++ table ++ "' is missing required columns: "
        ++ String.intercalate ", " (missing_required tcols)) ∧
    (align_columns_to_table table tcols gcols).bind (fun pr => upsert pr.1)
      = Except.error ("Target table '" ++ table ++ "' is missing required columns: "
        ++ String.intercalate ", " (missing_required tcols)) := by
  have halign : align_columns_to_table table tcols gcols
      = Except.error ("Target table '" ++ table ++ "' is missing required columns: "
        ++ String.intercalate ", " (missing_required tcols)) := by
    simp only [align_columns_to_table]
    rw [if_pos h]
  refine ⟨halign, ?_⟩
  rw [halign]
  rfl

/-- C6 witness: a target table lacking only geometry makes the aligner fail
with a missing-column list that is exactly geometry, before any write. -/
theorem c6_witness :
    (missing_required ["image_url", "name", "extra"] ≠ []) ∧
    (align_columns_to_table "t" ["image_url", "name", "extra"] ["image_url", "name"]
        = Except.error "Target table 't' is missing required columns: geometry" ∧
      (align_columns_to_table "t" ["image_url", "name", "extra"]
          ["image_url", "name"]).bind (fun _ => Except.ok ())
        = Except.error "Target table 't' is missing required columns: geometry") :=
  ⟨by decide, c6_missing_required_fails_before_write "t" ["image_url", "name", "extra"]
    ["image_url", "name"] (fun _ => Except.ok ()) (by decide)⟩

/-- C7: when the target table has all required columns, the aligner returns
the frame's columns restricted to those present in the target, in the
frame's own order (the kept column list is a sublist of the frame's columns);
the warning is present exactly when the dropped-column list is non-empty and
lists exactly those dropped columns; and every dropped column is one the
target does not have. -/
theorem c7_projection_preserves_frame_order (table : String) (tcols gcols : List String)
    (h : missing_required tcols = []) :
    align_columns_to_table table tcols gcols
      = Except.ok (gcols.filter (fun c => tcols.contains c),
          if gcols.filter (fun c => !(tcols.contains c)) ≠ [] then
            some ("Dropping columns not present in '" ++ table ++ "': "
              ++ String.intercalate ", " (gcols.filter (fun c => !(tcols.contains c))))
          else none) ∧
    (gcols.filter (fun c => tcols.contains c)).Sublist gcols ∧
    ((gcols.filter (fun c => !(tcols.contains c))).all
      (fun c => !(tcols.contains c)) = true) := by
  refine ⟨?_, List.filter_sublist _, ?_⟩
  · simp only [align_columns_to_table]
    rw [if_neg (fun hc => hc h)]
  · rw [List.all_eq_true]
    intro c hc
    exact (List.mem_filter.mp hc).2

/-- C7 witness: the spec's alignment example — target columns image_url,
name, geometry and an extra extractor column camera_make — keeps the three
target columns in frame order and warns about dropping camera_make. -/
theorem c7_witness :
    (missing_required ["image_url", "name", "geometry"] = []) ∧
    (align_columns_to_table "t" ["image_url", "name", "geometry"]
        ["image_url", "name", "geometry", "camera_make"]
        = Except.ok (["image_url", "name", "geometry"],
            some "Dropping columns not present in 't': camera_make") ∧
      (["image_url", "name", "geometry"] : List String).Sublist
        ["image_url", "name", "geometry", "camera_make"] ∧
      ((["camera_make"] : List String).all
        (fun c => !((["image_url", "name", "geometry"] : List String).contains c)) = true)) := by
  refine ⟨by decide, ?_⟩
  exact c7_projection_preserves_frame_order "t" ["image_url", "name", "geometry"]
    ["image_url", "name", "geometry", "camera_make"] (by decide)
